import Mathlib

/-!
Shallow embedding of `src/python/RCP_conv.py` (function `RCP_to_GEMS`).

The Python 2 program reads a CSV file with `csv.reader(..., quoting=QUOTE_NONNUMERIC)`,
so every unquoted field is converted to a float (a ValueError is raised by
`reader.next()` on an unquoted non-numeric field, including an unquoted empty
field) while quoted fields stay strings.  We model a raw CSV field as:
  * `RawField.num q`  : an unquoted field that parses as the number `q`,
  * `RawField.str s`  : a quoted field holding the string `s`,
  * `RawField.bad`    : an unquoted field on which float conversion fails.
Numbers are modelled by `ℚ` (the program's arithmetic on the values the claims
concern — integer subtraction, division by 1000, multiplication by the literal
0.01745329251 — is exact on rationals).  Python exceptions become `PyError`;
`Outcome` distinguishes the two returned pairs from an exception escaping the
function.  The input file is the list of its CSV records (header row first).
-/

inductive PyError where
  | valueError
  | typeError
  | indexError
  | attributeError
  | stopIteration
deriving DecidableEq

inductive Value where
  | num (q : ℚ)
  | str (s : String)
deriving DecidableEq

inductive RawField where
  | num (q : ℚ)
  | str (s : String)
  | bad
deriving DecidableEq

abbrev RawRow := List RawField

/-- Outcome of a call: `retTrue` models `return (True, output_filename)`,
`retFalse e` models `return (False, e)`, and `uncaught e` models an exception
propagating out of `RCP_to_GEMS` to its caller. -/
inductive Outcome where
  | retTrue
  | retFalse (e : PyError)
  | uncaught (e : PyError)
deriving DecidableEq

/-- What one run writes and how it ends: the header row written at line 50 (if
reached), the data rows written at lines 83 and 111, the number of
"Warning: Illegal Character" lines printed, and the outcome. -/
structure RunResult where
  header : Option (List String)
  rows : List (List Value)
  warns : ℕ
  outcome : Outcome
deriving DecidableEq

/-- The literal `to_rads = 0.01745329251` from line 27 of the source. -/
def to_rads : ℚ := 1745329251 / 100000000000

/-- Python 2 `int()` truncates a float toward zero; on `ℚ` this is
`num.tdiv den`. -/
def truncQ (q : ℚ) : ℤ := q.num.tdiv (q.den : ℤ)

/-- Value of `'0' ≤ c ≤ '9'` digits, accumulated left to right. -/
def digitsAux (acc : ℕ) : List Char → Option ℕ
  | [] => some acc
  | c :: rest =>
      if '0' ≤ c ∧ c ≤ '9' then digitsAux (acc * 10 + (c.toNat - 48)) rest
      else none

/-- Python 2 `int(s)` on a string: an optional minus sign followed by at least
one decimal digit; anything else raises ValueError. -/
def strToInt (s : String) : Option ℤ :=
  match s.data with
  | [] => none
  | '-' :: rest =>
      match rest with
      | [] => none
      | _ => (digitsAux 0 rest).map (fun n => -(n : ℤ))
  | l => (digitsAux 0 l).map (fun n => (n : ℤ))

/-- `csv.reader` conversion of one raw field (QUOTE_NONNUMERIC): unquoted
fields become floats, quoted fields stay strings, and an unconvertible
unquoted field raises ValueError. -/
def parseField : RawField → Except PyError Value
  | .num q => .ok (.num q)
  | .str s => .ok (.str s)
  | .bad => .error .valueError

/-- `reader.next()` on one record: the whole row of converted fields, or the
ValueError raised at the first unconvertible field. -/
def parseRow : RawRow → Except PyError (List Value)
  | [] => .ok []
  | f :: rest =>
      match parseField f with
      | .error e => .error e
      | .ok v =>
          match parseRow rest with
          | .error e => .error e
          | .ok vs => .ok (v :: vs)

/-- Python `row[i] = v`: IndexError when `i` is out of range. -/
def setAt (row : List Value) (i : ℕ) (v : Value) : Except PyError (List Value) :=
  if i < row.length then .ok (row.set i v) else .error .indexError

/-- Python `int(row[i])`: IndexError out of range; a float truncates toward
zero; a string must be an integer literal, else ValueError. -/
def pyIntAt (row : List Value) (i : ℕ) : Except PyError ℤ :=
  match row[i]? with
  | none => .error .indexError
  | some (.num q) => .ok (truncQ q)
  | some (.str s) =>
      match strToInt s with
      | some n => .ok n
      | none => .error .valueError

/-- Python `row[i] = row[i] * to_rads` (lines 81-82 and 102-103): IndexError
out of range; multiplying a str by a float raises TypeError. -/
def radAt (row : List Value) (i : ℕ) : Except PyError (List Value) :=
  match row[i]? with
  | none => .error .indexError
  | some (.str _) => .error .typeError
  | some (.num q) => setAt row i (.num (q * to_rads))

/-- Lines 99-100: `current_row[0] = (int(current_row[0]) - start_time)/1000.0`
and then the same for field 1 with `start_time_gps`. -/
def rebase01 (s sg : ℤ) (row : List Value) : Except PyError (List Value) :=
  match pyIntAt row 0 with
  | .error e => .error e
  | .ok t0 =>
      match setAt row 0 (.num (((t0 - s : ℤ) : ℚ) / 1000)) with
      | .error e => .error e
      | .ok row1 =>
          match pyIntAt row1 1 with
          | .error e => .error e
          | .ok t1 => setAt row1 1 (.num (((t1 - sg : ℤ) : ℚ) / 1000))

/-- Lines 80-82 and 101-103: the radian conversion of the Longitude field and
then the Latitude field, gated on `GPSSats_index != 0`. -/
def convPhase (sats lat long : ℕ) (row : List Value) : Except PyError (List Value) :=
  if sats ≠ 0 then
    match radAt row long with
    | .error e => .error e
    | .ok row1 => radAt row1 lat
  else .ok row

/-- Lines 106-108 with the running absolute index `i`: an empty-string field at
absolute index `i` is replaced by `previous_row[i]` (IndexError when
`previous_row` is too short). -/
def gapFillFrom (prev : List Value) : ℕ → List Value → Except PyError (List Value)
  | _, [] => .ok []
  | i, v :: rest =>
      if v = .str "" then
        match prev[i]? with
        | none => .error .indexError
        | some p =>
            match gapFillFrom prev (i + 1) rest with
            | .error e => .error e
            | .ok out => .ok (p :: out)
      else
        match gapFillFrom prev (i + 1) rest with
        | .error e => .error e
        | .ok out => .ok (v :: out)

/-- Lines 105-108: populate blanks of `row` from `prev`. -/
def gapFill (prev row : List Value) : Except PyError (List Value) :=
  gapFillFrom prev 0 row

/-- Lines 99-111 minus the write: the whole per-row transform of the streaming
loop body after `reader.next()` succeeded.  Every error here is raised outside
the `try:` of lines 88-97, hence uncaught. -/
def stepRow (sats lat long : ℕ) (s sg : ℤ) (prev row : List Value) :
    Except PyError (List Value) :=
  match rebase01 s sg row with
  | .error e => .error e
  | .ok r1 =>
      match convPhase sats lat long r1 with
      | .error e => .error e
      | .ok r2 => gapFill prev r2

/-- Result of the skip phase (lines 53-66): `found w rest` when some row's
satellite field compared `>= num_of_sats` (that row is consumed by the
`reader.next()` in the `if` of line 57 and NOT kept; `rest` is what remains
after it), `err w e` for `return (False, e)`; `w` counts the warning lines. -/
inductive SkipResult where
  | found (warns : ℕ) (rest : List RawRow)
  | err (warns : ℕ) (e : PyError)
deriving DecidableEq

/-- Add one warning line to a skip-phase result. -/
def bumpSkip : SkipResult → SkipResult
  | .found w rest => .found (w + 1) rest
  | .err w e => .err (w + 1) e

/-- Lines 53-66: skip rows until `reader.next()[GPSSats_index] >= num_of_sats`.
A ValueError from the reader prints a warning and continues; any other
exception (StopIteration at end of file included, Python 2's `except
Exception`) yields `return (False, e)`.  The comparison follows Python 2: a
string field is greater than any number, so it satisfies `>=`. -/
def skipPhase (sats : ℕ) (n : ℚ) : List RawRow → SkipResult
  | [] => .err 0 .stopIteration
  | r :: rest =>
      match parseRow r with
      | .error .valueError => bumpSkip (skipPhase sats n rest)
      | .error e => .err 0 e
      | .ok row =>
          match row[sats]? with
          | none => .err 0 .indexError
          | some (.str _) => .found 0 rest
          | some (.num q) => if n ≤ q then .found 0 rest else skipPhase sats n rest

/-- Lines 74-76: replace every field equal to the empty string with `0.0`. -/
def blankZero (row : List Value) : List Value :=
  row.map (fun v => if v = .str "" then .num 0 else v)

/-- Lines 69-84: read the seed row (`first_row = reader.next()`, line 70 — not
inside any `try:`, so every exception here is uncaught), record
`start_time = int(first_row[0])` and `start_time_gps = int(first_row[1])`,
replace empty strings with `0.0`, force fields 0 and 1 to `0.0`, and apply the
radian conversion when `GPSSats_index != 0`.  Returns
`(start_time, start_time_gps, written seed row, remaining records)`. -/
def seedRow (sats lat long : ℕ) : List RawRow →
    Except PyError (ℤ × ℤ × List Value × List RawRow)
  | [] => .error .stopIteration
  | r :: rest =>
      match parseRow r with
      | .error e => .error e
      | .ok row =>
          match pyIntAt row 0 with
          | .error e => .error e
          | .ok s =>
              match pyIntAt row 1 with
              | .error e => .error e
              | .ok sg =>
                  match setAt (blankZero row) 0 (.num 0) with
                  | .error e => .error e
                  | .ok row2 =>
                      match setAt row2 1 (.num 0) with
                      | .error e => .error e
                      | .ok row3 =>
                          match convPhase sats lat long row3 with
                          | .error e => .error e
                          | .ok row4 => .ok (s, sg, row4, rest)

/-- Lines 86-111: the streaming loop.  End of file returns
`(True, output_filename)`; a ValueError from `reader.next()` warns and
continues; any other reader exception returns `(False, e)`; an error in the
row transform (lines 99-111, outside the `try:`) escapes uncaught.  Returns
(written rows, warning count, outcome). -/
def streamLoop (sats lat long : ℕ) (s sg : ℤ) (prev : List Value) :
    List RawRow → List (List Value) × ℕ × Outcome
  | [] => ([], 0, .retTrue)
  | r :: rest =>
      match parseRow r with
      | .error .valueError =>
          match streamLoop sats lat long s sg prev rest with
          | (outs, w, oc) => (outs, w + 1, oc)
      | .error e => ([], 0, .retFalse e)
      | .ok row =>
          match stepRow sats lat long s sg prev row with
          | .error e => ([], 0, .uncaught e)
          | .ok out =>
              match streamLoop sats lat long s sg out rest with
              | (outs, w, oc) => (out :: outs, w, oc)

/-- Phases 3 and 4 on the records left after the (possible) skip phase;
`w0` carries the warnings already printed by the skip phase. -/
def afterSkip (header : List String) (sats lat long : ℕ) (w0 : ℕ)
    (rows : List RawRow) : RunResult :=
  match seedRow sats lat long rows with
  | .error e => ⟨some header, [], w0, .uncaught e⟩
  | .ok (s, sg, out, rest) =>
      match streamLoop sats lat long s sg out rest with
      | (outs, w, oc) => ⟨some header, out :: outs, w0 + w, oc⟩

/-- Everything after column resolution (lines 50-111): write the header, run
the skip phase only when `GPSSats_index != 0` (line 53), then seed and
stream. -/
def runWithIndices (header : List String) (sats lat long : ℕ) (n : ℚ)
    (rows : List RawRow) : RunResult :=
  if sats ≠ 0 then
    match skipPhase sats n rows with
    | .err w e => ⟨some header, [], w, .retFalse e⟩
    | .found w rest => afterSkip header sats lat long w rest
  else afterSkip header sats lat long 0 rows

/-- Line 39: `column.split("|")[0]` — the prefix of the string before the
first `|`. -/
def stripUnits (s : String) : String :=
  String.mk (s.data.takeWhile (fun c => c != '|'))

/-- Lines 36-39 applied to one converted field: a float has no `.split`
(AttributeError, uncaught); a string is truncated at its first `|`. -/
def headerName : Value → Except PyError String
  | .num _ => .error .attributeError
  | .str s => .ok (stripUnits s)

/-- Map `headerName` over the title row, stopping at the first error. -/
def headerNames : List Value → Except PyError (List String)
  | [] => .ok []
  | v :: rest =>
      match headerName v with
      | .error e => .error e
      | .ok s =>
          match headerNames rest with
          | .error e => .error e
          | .ok l => .ok (s :: l)

/-- Lines 37-39: `title_row = reader.next()` followed by the `split("|")[0]`
loop.  Both a reader ValueError and an AttributeError here are uncaught. -/
def headerOfRow (r : RawRow) : Except PyError (List String) :=
  match parseRow r with
  | .error e => .error e
  | .ok row => headerNames row

/-- Lines 41-48: `header.index(...)` for the three names, with the joint
fallback to `(0, 0, 0)` when any of the three is absent. -/
def resolveIndices (header : List String) : ℕ × ℕ × ℕ :=
  match header.findIdx? (fun s => s == "GPSSats"),
        header.findIdx? (fun s => s == "Latitude"),
        header.findIdx? (fun s => s == "Longitude") with
  | some g, some la, some lo => (g, la, lo)
  | _, _, _ => (0, 0, 0)

/-- The whole of `RCP_to_GEMS` (lines 26-111) on the file's records: read the
title row (uncaught StopIteration on an empty file), resolve the column
indices, write the header and run the remaining phases. -/
def RCP_to_GEMS (input : List RawRow) (num_of_sats : ℚ) : RunResult :=
  match input with
  | [] => ⟨none, [], 0, .uncaught .stopIteration⟩
  | h :: rows =>
      match headerOfRow h with
      | .error e => ⟨none, [], 0, .uncaught e⟩
      | .ok header =>
          match resolveIndices header with
          | (g, la, lo) => runWithIndices header g la lo num_of_sats rows

deriving instance DecidableEq for Except

@[simp] theorem value_num_ne_str (q : ℚ) (s : String) :
    (Value.num q = Value.str s) ↔ False :=
  ⟨fun h => Value.noConfusion h, False.elim⟩

@[simp] theorem value_str_ne_num (q : ℚ) (s : String) :
    (Value.str s = Value.num q) ↔ False :=
  ⟨fun h => Value.noConfusion h, False.elim⟩

theorem truncQ_of_nonneg {q : ℚ} (h : 0 ≤ q) : truncQ q = ⌊q⌋ := by
  rw [truncQ, Int.tdiv_eq_ediv (Rat.num_nonneg.mpr h) (by positivity), ← Rat.floor_def]

theorem truncQ_of_nonpos {q : ℚ} (h : q ≤ 0) : truncQ q = ⌈q⌉ := by
  have h1 : truncQ q = -((-q).num.tdiv (((-q).den : ℕ) : ℤ)) := by
    simp [truncQ, Rat.neg_num, Rat.neg_den, Int.neg_tdiv]
  have hnum : (0 : ℤ) ≤ (-q).num := by
    rw [Rat.neg_num]
    have := Rat.num_nonpos.mpr h
    omega
  rw [h1, Int.tdiv_eq_ediv hnum (by positivity), ← Rat.floor_def, Int.floor_neg, neg_neg]

theorem truncQ_mono {a b : ℚ} (h : a ≤ b) : truncQ a ≤ truncQ b := by
  by_cases ha : 0 ≤ a
  · rw [truncQ_of_nonneg ha, truncQ_of_nonneg (le_trans ha h)]
    exact Int.floor_le_floor h
  · push_neg at ha
    by_cases hb : 0 ≤ b
    · rw [truncQ_of_nonpos ha.le, truncQ_of_nonneg hb]
      have h1 : ⌈a⌉ ≤ 0 := Int.ceil_le.mpr (by exact_mod_cast ha.le)
      have h2 : 0 ≤ ⌊b⌋ := Int.floor_nonneg.mpr hb
      omega
    · push_neg at hb
      rw [truncQ_of_nonpos ha.le, truncQ_of_nonpos hb.le]
      exact Int.ceil_le_ceil h

theorem setAt_ok {row : List Value} {i : ℕ} {v : Value} {out : List Value}
    (h : setAt row i v = .ok out) : i < row.length ∧ out = row.set i v := by
  rw [setAt] at h
  by_cases hlt : i < row.length
  · rw [if_pos hlt] at h
    injection h with h2
    exact ⟨hlt, h2.symm⟩
  · rw [if_neg hlt] at h
    cases h

theorem radAt_ok {row : List Value} {i : ℕ} {out : List Value}
    (h : radAt row i = .ok out) :
    ∃ q : ℚ, row[i]? = some (.num q) ∧ out = row.set i (.num (q * to_rads)) := by
  rw [radAt] at h
  cases hg : row[i]? with
  | none => rw [hg] at h; cases h
  | some v =>
      cases v with
      | str s => rw [hg] at h; cases h
      | num q =>
          rw [hg] at h
          exact ⟨q, rfl, (setAt_ok h).2⟩

theorem radAt_ok_length {row : List Value} {i : ℕ} {out : List Value}
    (h : radAt row i = .ok out) : out.length = row.length := by
  obtain ⟨q, _, hout⟩ := radAt_ok h
  rw [hout, List.length_set]

theorem radAt_ok_get_ne {row : List Value} {i : ℕ} {out : List Value}
    (h : radAt row i = .ok out) {k : ℕ} (hk : i ≠ k) : out[k]? = row[k]? := by
  obtain ⟨q, _, hout⟩ := radAt_ok h
  rw [hout, List.getElem?_set_ne hk]

theorem radAt_ok_preserve_zero {row : List Value} {i : ℕ} {out : List Value}
    (h : radAt row i = .ok out) {k : ℕ} (hk : row[k]? = some (.num 0)) :
    out[k]? = some (.num 0) := by
  obtain ⟨q, hq, hout⟩ := radAt_ok h
  by_cases hik : i = k
  · subst hik
    rw [hq] at hk
    injection hk with hk2
    injection hk2 with hk3
    obtain ⟨hlt, _⟩ := List.getElem?_eq_some.mp hq
    rw [hout, List.getElem?_set_self hlt, hk3, zero_mul]
  · rw [hout, List.getElem?_set_ne hik]
    exact hk

theorem convPhase_sats_zero (la lo : ℕ) (row : List Value) :
    convPhase 0 la lo row = .ok row := by
  simp [convPhase]

theorem convPhase_ok_elim {sats la lo : ℕ} {row out : List Value}
    (h : convPhase sats la lo row = .ok out) (hs : sats ≠ 0) :
    ∃ row1, radAt row lo = .ok row1 ∧ radAt row1 la = .ok out := by
  rw [convPhase, if_pos hs] at h
  cases hr : radAt row lo with
  | error e => rw [hr] at h; cases h
  | ok row1 => rw [hr] at h; exact ⟨row1, rfl, h⟩

theorem convPhase_ok_length {sats la lo : ℕ} {row out : List Value}
    (h : convPhase sats la lo row = .ok out) : out.length = row.length := by
  by_cases hs : sats ≠ 0
  · obtain ⟨row1, h1, h2⟩ := convPhase_ok_elim h hs
    rw [radAt_ok_length h2, radAt_ok_length h1]
  · rw [convPhase, if_neg hs] at h
    injection h with h2
    rw [← h2]

theorem convPhase_ok_get_ne {sats la lo : ℕ} {row out : List Value}
    (h : convPhase sats la lo row = .ok out) {k : ℕ} (hla : k ≠ la) (hlo : k ≠ lo) :
    out[k]? = row[k]? := by
  by_cases hs : sats ≠ 0
  · obtain ⟨row1, h1, h2⟩ := convPhase_ok_elim h hs
    rw [radAt_ok_get_ne h2 (Ne.symm hla), radAt_ok_get_ne h1 (Ne.symm hlo)]
  · rw [convPhase, if_neg hs] at h
    injection h with h2
    rw [← h2]

theorem convPhase_ok_preserve_zero {sats la lo : ℕ} {row out : List Value}
    (h : convPhase sats la lo row = .ok out) {k : ℕ}
    (hk : row[k]? = some (.num 0)) : out[k]? = some (.num 0) := by
  by_cases hs : sats ≠ 0
  · obtain ⟨row1, h1, h2⟩ := convPhase_ok_elim h hs
    exact radAt_ok_preserve_zero h2 (radAt_ok_preserve_zero h1 hk)
  · rw [convPhase, if_neg hs] at h
    injection h with h2
    rw [← h2]
    exact hk

/-- The factor the radian-conversion step applies to field 0: `to_rads` once
for each of the Longitude and Latitude indices that happens to be 0, and only
when the conversion is enabled. -/
def zscale (sats la lo : ℕ) : ℚ :=
  (if sats ≠ 0 ∧ lo = 0 then to_rads else 1) * (if sats ≠ 0 ∧ la = 0 then to_rads else 1)

theorem to_rads_pos : 0 < to_rads := by norm_num [to_rads]

theorem zscale_pos (sats la lo : ℕ) : 0 < zscale sats la lo := by
  unfold zscale
  have := to_rads_pos
  split <;> split <;> nlinarith

theorem radAt_ok_get_zero {row out : List Value} {i : ℕ} {v : ℚ}
    (h : radAt row i = .ok out) (hv : row[0]? = some (.num v)) :
    out[0]? = some (.num (v * (if i = 0 then to_rads else 1))) := by
  obtain ⟨q, hq, hout⟩ := radAt_ok h
  by_cases hi : i = 0
  · subst hi
    rw [hq] at hv
    injection hv with hv2
    injection hv2 with hv3
    obtain ⟨hlt, _⟩ := List.getElem?_eq_some.mp hq
    rw [hout, List.getElem?_set_self hlt, if_pos rfl, hv3]
  · rw [hout, List.getElem?_set_ne hi, hv, if_neg hi, mul_one]

theorem convPhase_ok_get_zero {sats la lo : ℕ} {row out : List Value} {v : ℚ}
    (h : convPhase sats la lo row = .ok out) (hv : row[0]? = some (.num v)) :
    out[0]? = some (.num (v * zscale sats la lo)) := by
  by_cases hs : sats ≠ 0
  · obtain ⟨row1, h1, h2⟩ := convPhase_ok_elim h hs
    have g1 := radAt_ok_get_zero h1 hv
    have g2 := radAt_ok_get_zero h2 g1
    rw [g2]
    unfold zscale
    by_cases hlo : lo = 0 <;> by_cases hla : la = 0 <;>
      simp [hs, hlo, hla, mul_assoc]
  · rw [convPhase, if_neg hs] at h
    injection h with h2
    rw [← h2, hv]
    unfold zscale
    simp [hs]

theorem gapFillFrom_ok_length {prev : List Value} :
    ∀ {cur : List Value} {i : ℕ} {out : List Value},
      gapFillFrom prev i cur = .ok out → out.length = cur.length := by
  intro cur
  induction cur with
  | nil =>
      intro i out h
      rw [gapFillFrom] at h
      injection h with h2
      rw [← h2]
  | cons v rest ih =>
      intro i out h
      rw [gapFillFrom] at h
      by_cases hv : v = .str ""
      · rw [if_pos hv] at h
        cases hp : prev[i]? with
        | none => rw [hp] at h; cases h
        | some p =>
            rw [hp] at h
            cases hg : gapFillFrom prev (i + 1) rest with
            | error e => rw [hg] at h; cases h
            | ok out2 =>
                rw [hg] at h
                injection h with h2
                rw [← h2, List.length_cons, List.length_cons, ih hg]
      · rw [if_neg hv] at h
        cases hg : gapFillFrom prev (i + 1) rest with
        | error e => rw [hg] at h; cases h
        | ok out2 =>
            rw [hg] at h
            injection h with h2
            rw [← h2, List.length_cons, List.length_cons, ih hg]

theorem gapFillFrom_ok_get {prev : List Value} :
    ∀ {cur : List Value} {i : ℕ} {out : List Value},
      gapFillFrom prev i cur = .ok out →
      ∀ {j : ℕ} {v : Value}, cur[j]? = some v →
        out[j]? = if v = .str "" then prev[i + j]? else some v := by
  intro cur
  induction cur with
  | nil =>
      intro i out h j v hj
      simp at hj
  | cons w rest ih =>
      intro i out h j v hj
      rw [gapFillFrom] at h
      by_cases hw : w = .str ""
      · rw [if_pos hw] at h
        cases hp : prev[i]? with
        | none => rw [hp] at h; cases h
        | some p =>
            rw [hp] at h
            cases hg : gapFillFrom prev (i + 1) rest with
            | error e => rw [hg] at h; cases h
            | ok out2 =>
                rw [hg] at h
                injection h with h2
                rw [← h2]
                cases j with
                | zero =>
                    rw [List.getElem?_cons_zero] at hj
                    injection hj with hv
                    rw [List.getElem?_cons_zero, if_pos (hv ▸ hw), Nat.add_zero, hp]
                | succ j2 =>
                    rw [List.getElem?_cons_succ] at hj
                    rw [List.getElem?_cons_succ, ih hg hj]
                    have harith : i + 1 + j2 = i + (j2 + 1) := by omega
                    rw [harith]
      · rw [if_neg hw] at h
        cases hg : gapFillFrom prev (i + 1) rest with
        | error e => rw [hg] at h; cases h
        | ok out2 =>
            rw [hg] at h
            injection h with h2
            rw [← h2]
            cases j with
            | zero =>
                rw [List.getElem?_cons_zero] at hj
                injection hj with hv
                rw [List.getElem?_cons_zero, ← hv, if_neg hw]
            | succ j2 =>
                rw [List.getElem?_cons_succ] at hj
                rw [List.getElem?_cons_succ, ih hg hj]
                have harith : i + 1 + j2 = i + (j2 + 1) := by omega
                rw [harith]

theorem gapFill_ok_get_of_ne {prev row out : List Value}
    (h : gapFill prev row = .ok out) {k : ℕ} {v : Value} (hv : row[k]? = some v)
    (hne : v ≠ .str "") : out[k]? = some v := by
  have := gapFillFrom_ok_get h hv
  rw [if_neg hne] at this
  exact this

theorem gapFill_ok_get_of_empty {prev row out : List Value}
    (h : gapFill prev row = .ok out) {k : ℕ} (hv : row[k]? = some (.str "")) :
    out[k]? = prev[k]? := by
  have := gapFillFrom_ok_get h hv
  rw [if_pos rfl, Nat.zero_add] at this
  exact this

theorem rebase01_ok_elim {s sg : ℤ} {row out : List Value}
    (h : rebase01 s sg row = .ok out) :
    ∃ t0 t1 : ℤ, pyIntAt row 0 = .ok t0 ∧
      out = (row.set 0 (.num (((t0 - s : ℤ) : ℚ) / 1000))).set 1
              (.num (((t1 - sg : ℤ) : ℚ) / 1000)) ∧
      0 < row.length ∧ 1 < row.length := by
  rw [rebase01] at h
  cases h0 : pyIntAt row 0 with
  | error e => rw [h0] at h; cases h
  | ok t0 =>
      simp only [h0] at h
      cases hs0 : setAt row 0 (.num (((t0 - s : ℤ) : ℚ) / 1000)) with
      | error e => rw [hs0] at h; cases h
      | ok row1 =>
          simp only [hs0] at h
          obtain ⟨hlt0, hrow1⟩ := setAt_ok hs0
          cases h1 : pyIntAt row1 1 with
          | error e => rw [h1] at h; cases h
          | ok t1 =>
              simp only [h1] at h
              obtain ⟨hlt1, hout⟩ := setAt_ok h
              refine ⟨t0, t1, rfl, ?_, hlt0, ?_⟩
              · rw [hout, hrow1]
              · rw [hrow1, List.length_set] at hlt1
                exact hlt1

theorem rebase01_ok_length {s sg : ℤ} {row out : List Value}
    (h : rebase01 s sg row = .ok out) : out.length = row.length := by
  obtain ⟨t0, t1, _, hout, _, _⟩ := rebase01_ok_elim h
  rw [hout, List.length_set, List.length_set]

theorem rebase01_ok_get_ne {s sg : ℤ} {row out : List Value}
    (h : rebase01 s sg row = .ok out) {k : ℕ} (hk0 : k ≠ 0) (hk1 : k ≠ 1) :
    out[k]? = row[k]? := by
  obtain ⟨t0, t1, _, hout, _, _⟩ := rebase01_ok_elim h
  rw [hout, List.getElem?_set_ne (Ne.symm hk1), List.getElem?_set_ne (Ne.symm hk0)]

theorem rebase01_ok_get_zero {s sg : ℤ} {row out : List Value} {a : ℚ}
    (h : rebase01 s sg row = .ok out) (ha : row[0]? = some (.num a)) :
    out[0]? = some (.num (((truncQ a - s : ℤ) : ℚ) / 1000)) := by
  obtain ⟨t0, t1, h0, hout, hlt0, _⟩ := rebase01_ok_elim h
  rw [pyIntAt, ha] at h0
  injection h0 with h0
  rw [hout, List.getElem?_set_ne (by omega : (1:ℕ) ≠ 0),
    List.getElem?_set_self hlt0, h0]

theorem stepRow_ok_elim {sats la lo : ℕ} {s sg : ℤ} {prev row out : List Value}
    (h : stepRow sats la lo s sg prev row = .ok out) :
    ∃ r1 r2, rebase01 s sg row = .ok r1 ∧ convPhase sats la lo r1 = .ok r2 ∧
      gapFill prev r2 = .ok out := by
  rw [stepRow] at h
  cases h1 : rebase01 s sg row with
  | error e => rw [h1] at h; cases h
  | ok r1 =>
      simp only [h1] at h
      cases h2 : convPhase sats la lo r1 with
      | error e => rw [h2] at h; cases h
      | ok r2 =>
          simp only [h2] at h
          exact ⟨r1, r2, rfl, h2, h⟩

theorem stepRow_ok_length {sats la lo : ℕ} {s sg : ℤ} {prev row out : List Value}
    (h : stepRow sats la lo s sg prev row = .ok out) : out.length = row.length := by
  obtain ⟨r1, r2, h1, h2, h3⟩ := stepRow_ok_elim h
  rw [gapFill] at h3
  rw [gapFillFrom_ok_length h3, convPhase_ok_length h2, rebase01_ok_length h1]

theorem stepRow_ok_get_zero {sats la lo : ℕ} {s sg : ℤ} {prev row out : List Value}
    {a : ℚ} (h : stepRow sats la lo s sg prev row = .ok out)
    (ha : row[0]? = some (.num a)) :
    out[0]? = some (.num ((((truncQ a - s : ℤ) : ℚ) / 1000) * zscale sats la lo)) := by
  obtain ⟨r1, r2, h1, h2, h3⟩ := stepRow_ok_elim h
  have g1 := rebase01_ok_get_zero h1 ha
  have g2 := convPhase_ok_get_zero h2 g1
  exact gapFill_ok_get_of_ne h3 g2 (by simp)

theorem stepRow_ok_get_empty {sats la lo : ℕ} {s sg : ℤ} {prev row out : List Value}
    {k : ℕ} (h : stepRow sats la lo s sg prev row = .ok out)
    (hk : row[k]? = some (.str "")) (hk0 : k ≠ 0) (hk1 : k ≠ 1)
    (hcv : sats ≠ 0 → k ≠ la ∧ k ≠ lo) :
    out[k]? = prev[k]? := by
  obtain ⟨r1, r2, h1, h2, h3⟩ := stepRow_ok_elim h
  have g1 : r1[k]? = some (.str "") := by
    rw [rebase01_ok_get_ne h1 hk0 hk1]
    exact hk
  have g2 : r2[k]? = some (.str "") := by
    by_cases hs : sats ≠ 0
    · obtain ⟨hla, hlo⟩ := hcv hs
      rw [convPhase_ok_get_ne h2 hla hlo]
      exact g1
    · push_neg at hs
      subst hs
      rw [convPhase_sats_zero] at h2
      injection h2 with h2
      rw [← h2]
      exact g1
  exact gapFill_ok_get_of_empty h3 g2

theorem stepRow_sats_zero (la lo : ℕ) (s sg : ℤ) (prev row : List Value) :
    stepRow 0 la lo s sg prev row = stepRow 0 0 0 s sg prev row := by
  rw [stepRow, stepRow]
  cases h1 : rebase01 s sg row with
  | error e => rfl
  | ok r1 => simp [convPhase_sats_zero]

theorem seedRow_sats_zero (la lo : ℕ) (rows : List RawRow) :
    seedRow 0 la lo rows = seedRow 0 0 0 rows := by
  cases rows with
  | nil => rfl
  | cons r rest => simp only [seedRow, convPhase_sats_zero]

theorem streamLoop_sats_zero (la lo : ℕ) (s sg : ℤ) :
    ∀ (rows : List RawRow) (prev : List Value),
      streamLoop 0 la lo s sg prev rows = streamLoop 0 0 0 s sg prev rows := by
  intro rows
  induction rows with
  | nil => intro prev; rfl
  | cons r rest ih =>
      intro prev
      rw [streamLoop, streamLoop]
      cases hp : parseRow r with
      | error e => cases e <;> simp [ih]
      | ok row =>
          dsimp only
          rw [stepRow_sats_zero]
          cases hst : stepRow 0 0 0 s sg prev row with
          | error e => rfl
          | ok out => simp [ih]

theorem afterSkip_sats_zero (header : List String) (la lo : ℕ) (w : ℕ)
    (rows : List RawRow) :
    afterSkip header 0 la lo w rows = afterSkip header 0 0 0 w rows := by
  rw [afterSkip, afterSkip, seedRow_sats_zero]
  cases hsd : seedRow 0 0 0 rows with
  | error e => rfl
  | ok tup =>
      obtain ⟨s, sg, out, rest⟩ := tup
      simp only [streamLoop_sats_zero]

theorem seedRow_ok_get01 {sats la lo : ℕ} {rows : List RawRow} {s sg : ℤ}
    {out : List Value} {rest : List RawRow}
    (h : seedRow sats la lo rows = .ok (s, sg, out, rest)) :
    out[0]? = some (.num 0) ∧ out[1]? = some (.num 0) := by
  cases rows with
  | nil => rw [seedRow] at h; cases h
  | cons r rest2 =>
      rw [seedRow] at h
      cases hp : parseRow r with
      | error e => rw [hp] at h; cases h
      | ok row =>
          simp only [hp] at h
          cases h0 : pyIntAt row 0 with
          | error e => rw [h0] at h; cases h
          | ok s0 =>
              simp only [h0] at h
              cases h1 : pyIntAt row 1 with
              | error e => rw [h1] at h; cases h
              | ok sg0 =>
                  simp only [h1] at h
                  cases hs0 : setAt (blankZero row) 0 (.num 0) with
                  | error e => rw [hs0] at h; cases h
                  | ok row2 =>
                      simp only [hs0] at h
                      cases hs1 : setAt row2 1 (.num 0) with
                      | error e => rw [hs1] at h; cases h
                      | ok row3 =>
                          simp only [hs1] at h
                          cases hc : convPhase sats la lo row3 with
                          | error e => rw [hc] at h; cases h
                          | ok row4 =>
                              simp only [hc, Except.ok.injEq, Prod.mk.injEq] at h
                              obtain ⟨_, _, hout, _⟩ := h
                              subst hout
                              obtain ⟨hltA, hrow2⟩ := setAt_ok hs0
                              obtain ⟨hltB, hrow3⟩ := setAt_ok hs1
                              have hz0 : row3[0]? = some (.num 0) := by
                                rw [hrow3, List.getElem?_set_ne (by omega : (1:ℕ) ≠ 0),
                                  hrow2, List.getElem?_set_self hltA]
                              have hz1 : row3[1]? = some (.num 0) := by
                                rw [hrow3, List.getElem?_set_self hltB]
                              exact ⟨convPhase_ok_preserve_zero hc hz0,
                                convPhase_ok_preserve_zero hc hz1⟩

theorem streamLoop_skip {sats la lo : ℕ} {s sg : ℤ} {prev : List Value}
    {r : RawRow} {rest : List RawRow} (hp : parseRow r = .error .valueError) :
    streamLoop sats la lo s sg prev (r :: rest) =
      ((streamLoop sats la lo s sg prev rest).1,
       (streamLoop sats la lo s sg prev rest).2.1 + 1,
       (streamLoop sats la lo s sg prev rest).2.2) := by
  rw [streamLoop, hp]

theorem streamLoop_uncaught {sats la lo : ℕ} {s sg : ℤ} {e : PyError} :
    ∀ {rows : List RawRow} {prev : List Value},
      (streamLoop sats la lo s sg prev rows).2.2 = .uncaught e →
      ∃ prev2 row, stepRow sats la lo s sg prev2 row = .error e := by
  intro rows
  induction rows with
  | nil =>
      intro prev h
      rw [streamLoop] at h
      cases h
  | cons r rest ih =>
      intro prev h
      rw [streamLoop] at h
      cases hp : parseRow r with
      | error e2 =>
          cases e2 with
          | valueError =>
              simp only [hp] at h
              rcases hsl : streamLoop sats la lo s sg prev rest with ⟨outs, w, oc⟩
              rw [hsl] at h
              have hh2 : (streamLoop sats la lo s sg prev rest).2.2 = .uncaught e := by
                rw [hsl]
                exact h
              exact ih hh2
          | typeError => rw [hp] at h; cases h
          | indexError => rw [hp] at h; cases h
          | attributeError => rw [hp] at h; cases h
          | stopIteration => rw [hp] at h; cases h
      | ok row =>
          simp only [hp] at h
          cases hst : stepRow sats la lo s sg prev row with
          | error e2 =>
              simp only [hst] at h
              have he : e2 = e := by
                injection h with h2
              exact ⟨prev, row, by rw [hst, he]⟩
          | ok out =>
              simp only [hst] at h
              rcases hsl : streamLoop sats la lo s sg out rest with ⟨outs, w, oc⟩
              rw [hsl] at h
              have hh2 : (streamLoop sats la lo s sg out rest).2.2 = .uncaught e := by
                rw [hsl]
                exact h
              exact ih hh2

theorem radAt_ok_get_at {row out : List Value} {i : ℕ} {a : ℚ}
    (h : radAt row i = .ok out) (ha : row[i]? = some (.num a)) :
    out[i]? = some (.num (a * to_rads)) := by
  obtain ⟨q, hq, hout⟩ := radAt_ok h
  rw [hq] at ha
  injection ha with ha2
  injection ha2 with ha3
  obtain ⟨hlt, _⟩ := List.getElem?_eq_some.mp hq
  rw [hout, List.getElem?_set_self hlt, ha3]

theorem parseRow_ok_length :
    ∀ {r : RawRow} {row : List Value}, parseRow r = .ok row → row.length = r.length := by
  intro r
  induction r with
  | nil =>
      intro row h
      rw [parseRow] at h
      injection h with h2
      rw [← h2]
      rfl
  | cons f rest ih =>
      intro row h
      rw [parseRow] at h
      cases hf : parseField f with
      | error e => rw [hf] at h; cases h
      | ok v =>
          simp only [hf] at h
          cases hr : parseRow rest with
          | error e => rw [hr] at h; cases h
          | ok vs =>
              simp only [hr] at h
              injection h with h2
              rw [← h2, List.length_cons, List.length_cons, ih hr]

theorem blankZero_length (row : List Value) : (blankZero row).length = row.length := by
  simp [blankZero]

theorem seedRow_ok_length {sats la lo : ℕ} {rows : List RawRow} {s sg : ℤ}
    {out : List Value} {rest : List RawRow}
    (h : seedRow sats la lo rows = .ok (s, sg, out, rest)) :
    ∃ r rest2 row, rows = r :: rest2 ∧ parseRow r = .ok row ∧
      out.length = row.length := by
  cases rows with
  | nil => rw [seedRow] at h; cases h
  | cons r rest2 =>
      rw [seedRow] at h
      cases hp : parseRow r with
      | error e => rw [hp] at h; cases h
      | ok row =>
          simp only [hp] at h
          cases h0 : pyIntAt row 0 with
          | error e => rw [h0] at h; cases h
          | ok s0 =>
              simp only [h0] at h
              cases h1 : pyIntAt row 1 with
              | error e => rw [h1] at h; cases h
              | ok sg0 =>
                  simp only [h1] at h
                  cases hs0 : setAt (blankZero row) 0 (.num 0) with
                  | error e => rw [hs0] at h; cases h
                  | ok row2 =>
                      simp only [hs0] at h
                      cases hs1 : setAt row2 1 (.num 0) with
                      | error e => rw [hs1] at h; cases h
                      | ok row3 =>
                          simp only [hs1] at h
                          cases hc : convPhase sats la lo row3 with
                          | error e => rw [hc] at h; cases h
                          | ok row4 =>
                              simp only [hc, Except.ok.injEq, Prod.mk.injEq] at h
                              obtain ⟨_, _, hout, _⟩ := h
                              subst hout
                              obtain ⟨_, hrow2⟩ := setAt_ok hs0
                              obtain ⟨_, hrow3⟩ := setAt_ok hs1
                              refine ⟨r, rest2, row, rfl, hp, ?_⟩
                              rw [convPhase_ok_length hc, hrow3, List.length_set,
                                hrow2, List.length_set, blankZero_length]

theorem afterSkip_rows_head {header : List String} {g la lo w : ℕ}
    {rows : List RawRow} {r : List Value} {rest : List (List Value)}
    (h : (afterSkip header g la lo w rows).rows = r :: rest) :
    ∃ s sg rest2, seedRow g la lo rows = .ok (s, sg, r, rest2) := by
  rw [afterSkip] at h
  cases hsd : seedRow g la lo rows with
  | error e => rw [hsd] at h; cases h
  | ok tup =>
      obtain ⟨s, sg, out, rest2⟩ := tup
      simp only [hsd] at h
      rcases hsl : streamLoop g la lo s sg out rest2 with ⟨outs, w2, oc⟩
      rw [hsl] at h
      dsimp only at h
      injection h with h1 h2
      exact ⟨s, sg, rest2, by rw [h1]⟩

theorem afterSkip_outcome_uncaught {header : List String} {g la lo w : ℕ}
    {rows : List RawRow} {e : PyError}
    (h : (afterSkip header g la lo w rows).outcome = .uncaught e) :
    seedRow g la lo rows = .error e ∨
      ∃ s sg : ℤ, ∃ prev2 row2, stepRow g la lo s sg prev2 row2 = .error e := by
  rw [afterSkip] at h
  cases hsd : seedRow g la lo rows with
  | error e2 =>
      rw [hsd] at h
      dsimp only at h
      injection h with h2
      left
      rw [h2]
  | ok tup =>
      obtain ⟨s, sg, out, rest2⟩ := tup
      simp only [hsd] at h
      rcases hsl : streamLoop g la lo s sg out rest2 with ⟨outs, w2, oc⟩
      rw [hsl] at h
      dsimp only at h
      right
      refine ⟨s, sg, ?_⟩
      exact streamLoop_uncaught (by rw [hsl]; exact h)

theorem RCP_elim (input : List RawRow) (n : ℚ) :
    (input = [] ∧ RCP_to_GEMS input n = ⟨none, [], 0, .uncaught .stopIteration⟩) ∨
    ∃ hr rows, input = hr :: rows ∧
      ((∃ e, headerOfRow hr = .error e ∧
          RCP_to_GEMS input n = ⟨none, [], 0, .uncaught e⟩) ∨
       (∃ header g la lo, headerOfRow hr = .ok header ∧
          resolveIndices header = (g, la, lo) ∧
          RCP_to_GEMS input n = runWithIndices header g la lo n rows)) := by
  cases input with
  | nil => left; exact ⟨rfl, rfl⟩
  | cons hr rows =>
      right
      refine ⟨hr, rows, rfl, ?_⟩
      cases hh : headerOfRow hr with
      | error e =>
          left
          exact ⟨e, rfl, by simp only [RCP_to_GEMS, hh]⟩
      | ok header =>
          right
          rcases hri : resolveIndices header with ⟨g, la, lo⟩
          exact ⟨header, g, la, lo, rfl, hri, by simp only [RCP_to_GEMS, hh, hri]⟩

/-- C7: for every input that produces at least one output data row, fields 0
and 1 of the first output data row are exactly 0.0 (lines 78-79 set them, and
the radian conversion can only multiply a 0.0 there by `to_rads`, leaving 0.0). -/
theorem c7_first_row_zero_based (input : List RawRow) (n : ℚ)
    (r : List Value) (rest : List (List Value))
    (h : (RCP_to_GEMS input n).rows = r :: rest) :
    r[0]? = some (.num 0) ∧ r[1]? = some (.num 0) := by
  rcases RCP_elim input n with ⟨heq, hrcp⟩ |
    ⟨hr, rows, heq, ⟨e, hh, hrcp⟩ | ⟨header, g, la, lo, hh, hri, hrcp⟩⟩
  · rw [hrcp] at h; cases h
  · rw [hrcp] at h; cases h
  · rw [hrcp, runWithIndices] at h
    by_cases hg : g ≠ 0
    · rw [if_pos hg] at h
      cases hsk : skipPhase g n rows with
      | err w e => rw [hsk] at h; cases h
      | found w rest2 =>
          simp only [hsk] at h
          obtain ⟨s, sg, rest3, hseed⟩ := afterSkip_rows_head h
          exact seedRow_ok_get01 hseed
    · rw [if_neg hg] at h
      obtain ⟨s, sg, rest3, hseed⟩ := afterSkip_rows_head h
      exact seedRow_ok_get01 hseed

/-- C8: the streaming transform is monotone in field 0: if two rows (processed
with the same `start_time`) carry numeric field-0 values `a ≤ b`, the rows the
transform writes for them carry field-0 values `x ≤ y` — rebasing is
`(int(field0) - start_time)/1000.0` and introduces no reordering. -/
theorem c8_rebase_monotone (sats la lo : ℕ) (s sg : ℤ)
    (prev1 prev2 r1 r2 o1 o2 : List Value) (a b : ℚ)
    (ha : r1[0]? = some (.num a)) (hb : r2[0]? = some (.num b))
    (h1 : stepRow sats la lo s sg prev1 r1 = .ok o1)
    (h2 : stepRow sats la lo s sg prev2 r2 = .ok o2)
    (hab : a ≤ b) :
    ∃ x y : ℚ, o1[0]? = some (.num x) ∧ o2[0]? = some (.num y) ∧ x ≤ y := by
  refine ⟨_, _, stepRow_ok_get_zero h1 ha, stepRow_ok_get_zero h2 hb, ?_⟩
  have ht : truncQ a ≤ truncQ b := truncQ_mono hab
  have hq : ((truncQ a - s : ℤ) : ℚ) ≤ ((truncQ b - s : ℤ) : ℚ) := by
    exact_mod_cast sub_le_sub_right ht s
  have hdiv : ((truncQ a - s : ℤ) : ℚ) / 1000 ≤ ((truncQ b - s : ℤ) : ℚ) / 1000 := by
    exact (div_le_div_right (by norm_num)).mpr hq
  exact mul_le_mul_of_nonneg_right hdiv (zscale_pos sats la lo).le

/-- C10: when the header resolves 'GPSSats' to position 0 (with Latitude and
Longitude also present), the whole run equals the run with the joint-fallback
indices (0, 0, 0) — skip phase and radian conversion both disabled — and the
result does not depend on `min_satellites` at all. -/
theorem c10_gpssats_at_zero_disables (hraw : RawRow) (rows : List RawRow)
    (n : ℚ) (header : List String) (la lo : ℕ)
    (hh : headerOfRow hraw = .ok header)
    (hg : header.findIdx? (fun s => s == "GPSSats") = some 0)
    (hla : header.findIdx? (fun s => s == "Latitude") = some la)
    (hlo : header.findIdx? (fun s => s == "Longitude") = some lo) :
    RCP_to_GEMS (hraw :: rows) n = runWithIndices header 0 0 0 n rows ∧
    (∀ n2 : ℚ, RCP_to_GEMS (hraw :: rows) n = RCP_to_GEMS (hraw :: rows) n2) := by
  have hri : resolveIndices header = (0, la, lo) := by
    rw [resolveIndices, hg, hla, hlo]
  have h1 : RCP_to_GEMS (hraw :: rows) n = runWithIndices header 0 la lo n rows := by
    simp only [RCP_to_GEMS, hh, hri]
  have h2 : ∀ m : ℚ, runWithIndices header 0 la lo m rows =
      afterSkip header 0 0 0 0 rows := by
    intro m
    rw [runWithIndices, if_neg (by omega : ¬ (0 : ℕ) ≠ 0), afterSkip_sats_zero]
  constructor
  · rw [h1, h2 n, runWithIndices, if_neg (by omega : ¬ (0 : ℕ) ≠ 0)]
  · intro n2
    have h3 : RCP_to_GEMS (hraw :: rows) n2 = runWithIndices header 0 la lo n2 rows := by
      simp only [RCP_to_GEMS, hh, hri]
    rw [h1, h3, h2 n, h2 n2]

/-- C5 (amended): gap-fill holds for an empty field at position k not in
{0, 1} and, when the radian conversion is enabled, not at the latitude or
longitude column: the written value at k is the previous written row's value
at k.  (An empty latitude/longitude field with conversion enabled instead
aborts the run with an uncaught TypeError — see the counterexample.) -/
theorem c5_gapfill (sats la lo : ℕ) (s sg : ℤ) (prev row out : List Value)
    (k : ℕ) (h : stepRow sats la lo s sg prev row = .ok out)
    (hk : row[k]? = some (.str "")) (hk0 : k ≠ 0) (hk1 : k ≠ 1)
    (hcv : sats ≠ 0 → k ≠ la ∧ k ≠ lo) :
    out[k]? = prev[k]? :=
  stepRow_ok_get_empty h hk hk0 hk1 hcv

/-- C3 (amended): in the streaming loop a record whose CSV-level parse fails
(an unquoted non-numeric field) is skipped with one warning printed and no
state change: the remaining rows produce the same output, with the same
outcome, from the same `previous_row`.  (A quoted non-numeric string that
reaches `int()` or the radian multiply instead aborts the run uncaught — see
the counterexample.) -/
theorem c3_bad_row_warn_skip (sats la lo : ℕ) (s sg : ℤ) (prev : List Value)
    (r : RawRow) (rest : List RawRow) (hp : parseRow r = .error .valueError) :
    streamLoop sats la lo s sg prev (r :: rest) =
      ((streamLoop sats la lo s sg prev rest).1,
       (streamLoop sats la lo s sg prev rest).2.1 + 1,
       (streamLoop sats la lo s sg prev rest).2.2) :=
  streamLoop_skip hp

/-- C9 (amended): no field-count check against the header exists; the
transform preserves each row's own field count (the CSV parse keeps the raw
count, the per-row transform keeps the parsed count, and the seed row keeps
its parsed row's count), so a row whose count differs from the header's is
written as-is — see the counterexample for a written short row with success. -/
theorem c9_transform_preserves_length :
    (∀ (sats la lo : ℕ) (s sg : ℤ) (prev row out : List Value),
        stepRow sats la lo s sg prev row = .ok out → out.length = row.length) ∧
    (∀ (r : RawRow) (row : List Value), parseRow r = .ok row →
        row.length = r.length) ∧
    (∀ (sats la lo : ℕ) (rows : List RawRow) (s sg : ℤ) (out : List Value)
        (rest : List RawRow), seedRow sats la lo rows = .ok (s, sg, out, rest) →
        ∃ r rest2 row, rows = r :: rest2 ∧ parseRow r = .ok row ∧
          out.length = row.length) :=
  ⟨fun _ _ _ _ _ _ _ _ h => stepRow_ok_length h,
   fun _ _ h => parseRow_ok_length h,
   fun _ _ _ _ _ _ _ _ h => seedRow_ok_length h⟩

theorem to_rads_near_pi_div : |((to_rads : ℚ) : ℝ) - Real.pi / 180| < 1 / 100000000 := by
  have h1 := Real.pi_gt_3141592
  have h2 := Real.pi_lt_3141593
  have hc : ((to_rads : ℚ) : ℝ) = 1745329251 / 100000000000 := by
    norm_num [to_rads]
  rw [hc, abs_sub_lt_iff]
  constructor <;> nlinarith [h1, h2]

/-- C2 (amended): every exception that escapes `RCP_to_GEMS` (rather than
being turned into the returned pair) comes from one of the unprotected spots:
the title-row read on an empty file, the header parse, the seed-row handling
of line 70-84, or the per-row transform of lines 99-111; reader errors inside
the skip and streaming loops are always converted into the returned pair. -/
theorem c2_pair_unless_transform_raises (input : List RawRow) (n : ℚ)
    (e : PyError) (h : (RCP_to_GEMS input n).outcome = .uncaught e) :
    (input = [] ∧ e = .stopIteration) ∨
    (∃ hr rows, input = hr :: rows ∧ headerOfRow hr = .error e) ∨
    (∃ g la lo : ℕ, ∃ rows2 : List RawRow, seedRow g la lo rows2 = .error e) ∨
    (∃ g la lo : ℕ, ∃ s sg : ℤ, ∃ prev row : List Value,
      stepRow g la lo s sg prev row = .error e) := by
  rcases RCP_elim input n with ⟨heq, hrcp⟩ |
    ⟨hr, rows, heq, ⟨e2, hh, hrcp⟩ | ⟨header, g, la, lo, hh, hri, hrcp⟩⟩
  · rw [hrcp] at h
    dsimp only at h
    injection h with h2
    exact Or.inl ⟨heq, h2.symm⟩
  · rw [hrcp] at h
    dsimp only at h
    injection h with h2
    exact Or.inr (Or.inl ⟨hr, rows, heq, h2 ▸ hh⟩)
  · rw [hrcp, runWithIndices] at h
    by_cases hg : g ≠ 0
    · rw [if_pos hg] at h
      cases hsk : skipPhase g n rows with
      | err w e2 => rw [hsk] at h; cases h
      | found w rest2 =>
          simp only [hsk] at h
          rcases afterSkip_outcome_uncaught h with hseed | ⟨s, sg, prev2, row2, hstep⟩
          · exact Or.inr (Or.inr (Or.inl ⟨g, la, lo, rest2, hseed⟩))
          · exact Or.inr (Or.inr (Or.inr ⟨g, la, lo, s, sg, prev2, row2, hstep⟩))
    · rw [if_neg hg] at h
      rcases afterSkip_outcome_uncaught h with hseed | ⟨s, sg, prev2, row2, hstep⟩
      · exact Or.inr (Or.inr (Or.inl ⟨g, la, lo, rows, hseed⟩))
      · exact Or.inr (Or.inr (Or.inr ⟨g, la, lo, s, sg, prev2, row2, hstep⟩))

/-- C4 (amended): end of file during the skip phase terminates the run with
only the header written (no data rows), but it is reported through the
FAILURE pair `(False, StopIteration)` — the StopIteration is caught by the
`except Exception` of line 64 — not as a success. -/
theorem c4_eof_during_skip (hraw : RawRow) (rows : List RawRow) (n : ℚ)
    (header : List String) (g la lo w : ℕ)
    (hh : headerOfRow hraw = .ok header)
    (hri : resolveIndices header = (g, la, lo)) (hg : g ≠ 0)
    (hsk : skipPhase g n rows = .err w .stopIteration) :
    RCP_to_GEMS (hraw :: rows) n = ⟨some header, [], w, .retFalse .stopIteration⟩ := by
  simp only [RCP_to_GEMS, hh, hri, runWithIndices, if_pos hg, hsk]

/-- C6 (amended): with conversion enabled (GPSSats index nonzero) a numeric
latitude (resp. longitude) field outside positions 0, 1 is written multiplied
by exactly the code's constant `to_rads = 0.01745329251`; with index 0 the
fields pass through unchanged; the constant is within 10^-8 of pi/180 but is
not pi/180 itself (see the counterexample). -/
theorem c6_radians :
    (∀ (sats la lo : ℕ) (s sg : ℤ) (prev row out : List Value) (a : ℚ),
        sats ≠ 0 → la ≠ 0 → la ≠ 1 → la ≠ lo →
        row[la]? = some (.num a) →
        stepRow sats la lo s sg prev row = .ok out →
        out[la]? = some (.num (a * to_rads))) ∧
    (∀ (sats la lo : ℕ) (s sg : ℤ) (prev row out : List Value) (a : ℚ),
        sats ≠ 0 → lo ≠ 0 → lo ≠ 1 → la ≠ lo →
        row[lo]? = some (.num a) →
        stepRow sats la lo s sg prev row = .ok out →
        out[lo]? = some (.num (a * to_rads))) ∧
    (∀ (la lo : ℕ) (s sg : ℤ) (prev row out : List Value) (k : ℕ) (a : ℚ),
        k ≠ 0 → k ≠ 1 →
        row[k]? = some (.num a) →
        stepRow 0 la lo s sg prev row = .ok out →
        out[k]? = some (.num a)) ∧
    |((to_rads : ℚ) : ℝ) - Real.pi / 180| < 1 / 100000000 := by
  refine ⟨?_, ?_, ?_, to_rads_near_pi_div⟩
  · intro sats la lo s sg prev row out a hs hla0 hla1 hlalo ha h
    obtain ⟨r1, r2, h1, h2, h3⟩ := stepRow_ok_elim h
    have g1 : r1[la]? = some (.num a) := by
      rw [rebase01_ok_get_ne h1 hla0 hla1]
      exact ha
    obtain ⟨row1, hc1, hc2⟩ := convPhase_ok_elim h2 hs
    have g2 : row1[la]? = some (.num a) := by
      rw [radAt_ok_get_ne hc1 (Ne.symm hlalo)]
      exact g1
    have g3 := radAt_ok_get_at hc2 g2
    exact gapFill_ok_get_of_ne h3 g3 (by simp)
  · intro sats la lo s sg prev row out a hs hlo0 hlo1 hlalo ha h
    obtain ⟨r1, r2, h1, h2, h3⟩ := stepRow_ok_elim h
    have g1 : r1[lo]? = some (.num a) := by
      rw [rebase01_ok_get_ne h1 hlo0 hlo1]
      exact ha
    obtain ⟨row1, hc1, hc2⟩ := convPhase_ok_elim h2 hs
    have g2 := radAt_ok_get_at hc1 g1
    have g3 : r2[lo]? = some (.num (a * to_rads)) := by
      rw [radAt_ok_get_ne hc2 hlalo]
      exact g2
    exact gapFill_ok_get_of_ne h3 g3 (by simp)
  · intro la lo s sg prev row out k a hk0 hk1 ha h
    obtain ⟨r1, r2, h1, h2, h3⟩ := stepRow_ok_elim h
    have g1 : r1[k]? = some (.num a) := by
      rw [rebase01_ok_get_ne h1 hk0 hk1]
      exact ha
    rw [convPhase_sats_zero] at h2
    injection h2 with h2
    rw [← h2] at h3
    exact gapFill_ok_get_of_ne h3 g1 (by simp)

/-- C1: evaluated at the spec's own boundary scenario (satellite counts
[1, 2, 5, 7], `min_satellites = 5`), the row with count 5 terminates the skip
phase but is consumed and DISCARDED by the `reader.next()` inside the `if` of
line 57; the zero-basis seed row is the FOLLOWING row (count 7, Interval 1300),
so the single output data row carries satellite count 7 and the start time is
taken from the count-7 row — not from the first qualifying row as the spec
states. -/
theorem c1_skip_discards_qualifying_row :
    RCP_to_GEMS
        [[.str "Interval", .str "Utc", .str "GPSSats", .str "Latitude", .str "Longitude"],
         [.num 1000, .num 5000, .num 1, .num 45, .num 90],
         [.num 1100, .num 5100, .num 2, .num 45, .num 90],
         [.num 1200, .num 5200, .num 5, .num 45, .num 90],
         [.num 1300, .num 5300, .num 7, .num 46, .num 91]] 5 =
      ⟨some ["Interval", "Utc", "GPSSats", "Latitude", "Longitude"],
       [[.num 0, .num 0, .num 7, .num (46 * to_rads), .num (91 * to_rads)]],
       0, .retTrue⟩ := by
  have hh : headerOfRow
      [.str "Interval", .str "Utc", .str "GPSSats", .str "Latitude", .str "Longitude"] =
      .ok ["Interval", "Utc", "GPSSats", "Latitude", "Longitude"] := by decide
  have hri : resolveIndices ["Interval", "Utc", "GPSSats", "Latitude", "Longitude"] =
      (2, 3, 4) := by decide
  have hsk : skipPhase 2 5
      [[.num 1000, .num 5000, .num 1, .num 45, .num 90],
       [.num 1100, .num 5100, .num 2, .num 45, .num 90],
       [.num 1200, .num 5200, .num 5, .num 45, .num 90],
       [.num 1300, .num 5300, .num 7, .num 46, .num 91]] =
      .found 0 [[.num 1300, .num 5300, .num 7, .num 46, .num 91]] := by decide
  have hseed : seedRow 2 3 4 [[.num 1300, .num 5300, .num 7, .num 46, .num 91]] =
      .ok (1300, 5300,
           [.num 0, .num 0, .num 7, .num (46 * to_rads), .num (91 * to_rads)], []) := by
    norm_num [seedRow, parseRow, parseField, pyIntAt, truncQ, setAt, convPhase, radAt,
      blankZero]
  simp only [RCP_to_GEMS, hh, hri, runWithIndices, hsk, afterSkip, hseed, streamLoop]
  norm_num

/-- C2 counterexample: on a file holding only a header row (no GPSSats column,
so the skip phase is bypassed), the seed-row read at line 70 raises
StopIteration outside any `try:`, and the exception escapes `RCP_to_GEMS`
instead of a `(Bool, _)` pair being returned. -/
theorem c2_counterexample :
    (RCP_to_GEMS [[.str "Interval", .str "Utc", .str "Battery"]] 0).outcome =
      .uncaught .stopIteration := by decide

/-- C3 counterexample: a streaming row whose field 0 holds the quoted string
"x" (a non-numeric value in a field expected to be numeric) does NOT produce a
warning-and-skip: the `int()` at line 99 raises an uncaught ValueError, no
warning is counted, and the following well-formed row is never processed. -/
theorem c3_counterexample :
    RCP_to_GEMS
        [[.str "Interval", .str "Utc", .str "Battery"],
         [.num 1000, .num 5000, .num 12],
         [.str "x", .num 6000, .num 13],
         [.num 2000, .num 6000, .num 14]] 0 =
      ⟨some ["Interval", "Utc", "Battery"], [[.num 0, .num 0, .num 12]], 0,
       .uncaught .valueError⟩ := by decide

/-- C4 counterexample: with satellite counts [1, 2] all below the threshold 5,
end of file during the skip phase yields the FAILURE result
`(False, StopIteration)` (the StopIteration is caught by `except Exception` at
line 64), with only the header written — the claim says this is normal
termination distinct from the failure result. -/
theorem c4_counterexample :
    RCP_to_GEMS
        [[.str "Interval", .str "Utc", .str "GPSSats", .str "Latitude", .str "Longitude"],
         [.num 1000, .num 5000, .num 1, .num 45, .num 90],
         [.num 1100, .num 5100, .num 2, .num 45, .num 90]] 5 =
      ⟨some ["Interval", "Utc", "GPSSats", "Latitude", "Longitude"], [], 0,
       .retFalse .stopIteration⟩ := by decide

/-- C5 counterexample: a streaming row with an empty Latitude field while the
radian conversion is enabled is NOT gap-filled: line 102's `'' * to_rads`
raises an uncaught TypeError, no output row is written for it, and the run
aborts. -/
theorem c5_counterexample :
    RCP_to_GEMS
        [[.str "Interval", .str "Utc", .str "GPSSats", .str "Latitude", .str "Longitude"],
         [.num 1000, .num 5000, .num 7, .num 10, .num 20],
         [.num 1100, .num 5100, .num 7, .num 10, .num 20],
         [.num 2000, .num 6000, .num 7, .str "", .num 21]] 0 =
      ⟨some ["Interval", "Utc", "GPSSats", "Latitude", "Longitude"],
       [[.num 0, .num 0, .num 7, .num (10 * to_rads), .num (20 * to_rads)]], 0,
       .uncaught .typeError⟩ := by
  have hh : headerOfRow
      [.str "Interval", .str "Utc", .str "GPSSats", .str "Latitude", .str "Longitude"] =
      .ok ["Interval", "Utc", "GPSSats", "Latitude", "Longitude"] := by decide
  have hri : resolveIndices ["Interval", "Utc", "GPSSats", "Latitude", "Longitude"] =
      (2, 3, 4) := by decide
  have hsk : skipPhase 2 0
      [[.num 1000, .num 5000, .num 7, .num 10, .num 20],
       [.num 1100, .num 5100, .num 7, .num 10, .num 20],
       [.num 2000, .num 6000, .num 7, .str "", .num 21]] =
      .found 0 [[.num 1100, .num 5100, .num 7, .num 10, .num 20],
                [.num 2000, .num 6000, .num 7, .str "", .num 21]] := by decide
  have hseed : seedRow 2 3 4
      [[.num 1100, .num 5100, .num 7, .num 10, .num 20],
       [.num 2000, .num 6000, .num 7, .str "", .num 21]] =
      .ok (1100, 5100, [.num 0, .num 0, .num 7, .num (10 * to_rads), .num (20 * to_rads)],
           [[.num 2000, .num 6000, .num 7, .str "", .num 21]]) := by
    norm_num [seedRow, parseRow, parseField, pyIntAt, truncQ, setAt, convPhase, radAt,
      blankZero]
  have hp : parseRow [RawField.num 2000, RawField.num 6000, RawField.num 7,
      RawField.str "", RawField.num 21] =
      .ok [.num 2000, .num 6000, .num 7, .str "", .num 21] := by decide
  have hstep : stepRow 2 3 4 1100 5100
      [.num 0, .num 0, .num 7, .num (10 * to_rads), .num (20 * to_rads)]
      [.num 2000, .num 6000, .num 7, .str "", .num 21] = .error .typeError := by
    norm_num [stepRow, rebase01, pyIntAt, truncQ, setAt, convPhase, radAt]
  simp only [RCP_to_GEMS, hh, hri, runWithIndices, hsk, afterSkip, hseed, streamLoop,
    hp, hstep]
  norm_num

/-- C6 counterexample: for input latitude 1 (with conversion enabled) the
written latitude is exactly the rational constant `to_rads = 0.01745329251`,
and that constant is not pi/180 (pi is irrational), so the output is not the
input multiplied by pi/180. -/
theorem c6_counterexample :
    (RCP_to_GEMS
        [[.str "Interval", .str "Utc", .str "GPSSats", .str "Latitude", .str "Longitude"],
         [.num 1000, .num 5000, .num 7, .num 1, .num 2],
         [.num 2000, .num 6000, .num 8, .num 1, .num 2]] 0).rows =
      [[.num 0, .num 0, .num 8, .num to_rads, .num (2 * to_rads)]] ∧
    ((to_rads : ℚ) : ℝ) ≠ Real.pi / 180 := by
  constructor
  · have hh : headerOfRow
        [.str "Interval", .str "Utc", .str "GPSSats", .str "Latitude", .str "Longitude"] =
        .ok ["Interval", "Utc", "GPSSats", "Latitude", "Longitude"] := by decide
    have hri : resolveIndices ["Interval", "Utc", "GPSSats", "Latitude", "Longitude"] =
        (2, 3, 4) := by decide
    have hsk : skipPhase 2 0
        [[.num 1000, .num 5000, .num 7, .num 1, .num 2],
         [.num 2000, .num 6000, .num 8, .num 1, .num 2]] =
        .found 0 [[.num 2000, .num 6000, .num 8, .num 1, .num 2]] := by decide
    have hseed : seedRow 2 3 4 [[.num 2000, .num 6000, .num 8, .num 1, .num 2]] =
        .ok (2000, 6000,
             [.num 0, .num 0, .num 8, .num to_rads, .num (2 * to_rads)], []) := by
      norm_num [seedRow, parseRow, parseField, pyIntAt, truncQ, setAt, convPhase, radAt,
        blankZero]
    simp only [RCP_to_GEMS, hh, hri, runWithIndices, hsk, afterSkip, hseed, streamLoop]
    norm_num
  · intro hcontra
    have hpi : Real.pi = ((180 * to_rads : ℚ) : ℝ) := by
      push_cast
      linarith
    exact irrational_pi ⟨180 * to_rads, hpi.symm⟩

/-- C9 counterexample: under a 3-column header, a 2-field data row is written
as-is (rebased fields only), the run succeeds with `(True, path)`, and the
written row's field count differs from the header's — no fatal read error
occurs. -/
theorem c9_counterexample :
    RCP_to_GEMS
        [[.str "Interval", .str "Utc", .str "Battery"],
         [.num 1000, .num 5000, .num 12],
         [.num 1500, .num 5500]] 0 =
      ⟨some ["Interval", "Utc", "Battery"],
       [[.num 0, .num 0, .num 12], [.num (1/2), .num (1/2)]], 0, .retTrue⟩ ∧
    ([Value.num (1/2), Value.num (1/2)].length ≠
      (["Interval", "Utc", "Battery"] : List String).length) := by
  constructor
  · have hh : headerOfRow [.str "Interval", .str "Utc", .str "Battery"] =
        .ok ["Interval", "Utc", "Battery"] := by decide
    have hri : resolveIndices ["Interval", "Utc", "Battery"] = (0, 0, 0) := by decide
    have hseed : seedRow 0 0 0
        [[.num 1000, .num 5000, .num 12], [.num 1500, .num 5500]] =
        .ok (1000, 5000, [.num 0, .num 0, .num 12], [[.num 1500, .num 5500]]) := by
      decide
    have hstep : stepRow 0 0 0 1000 5000 [.num 0, .num 0, .num 12]
        [.num 1500, .num 5500] = .ok [.num (1/2), .num (1/2)] := by
      norm_num [stepRow, rebase01, pyIntAt, truncQ, setAt, convPhase, gapFill,
        gapFillFrom]
    have hp : parseRow [RawField.num 1500, RawField.num 5500] =
        .ok [.num 1500, .num 5500] := by decide
    simp only [RCP_to_GEMS, hh, hri, runWithIndices, afterSkip, hseed, streamLoop,
      hp, hstep]
    norm_num
  · decide

/-- Witness for C2's amended theorem at the header-only input. -/
theorem c2_witness :
    (([[RawField.str "Interval", RawField.str "Utc", RawField.str "Battery"]] :
        List RawRow) = [] ∧ PyError.stopIteration = PyError.stopIteration) ∨
    (∃ hr rows, ([[RawField.str "Interval", RawField.str "Utc",
        RawField.str "Battery"]] : List RawRow) = hr :: rows ∧
        headerOfRow hr = .error .stopIteration) ∨
    (∃ g la lo : ℕ, ∃ rows2 : List RawRow,
        seedRow g la lo rows2 = .error .stopIteration) ∨
    (∃ g la lo : ℕ, ∃ s sg : ℤ, ∃ prev row : List Value,
        stepRow g la lo s sg prev row = .error .stopIteration) :=
  c2_pair_unless_transform_raises
    [[.str "Interval", .str "Utc", .str "Battery"]] 0 .stopIteration (by decide)

/-- Witness for C3's amended theorem: one unconvertible record is skipped with
one warning. -/
theorem c3_witness :
    streamLoop 0 0 0 0 0 [] [[RawField.bad]] =
      ((streamLoop 0 0 0 0 0 [] []).1,
       (streamLoop 0 0 0 0 0 [] []).2.1 + 1,
       (streamLoop 0 0 0 0 0 [] []).2.2) :=
  c3_bad_row_warn_skip 0 0 0 0 0 [] [RawField.bad] [] (by decide)

/-- Witness for C4's amended theorem: one below-threshold row, then EOF. -/
theorem c4_witness :
    RCP_to_GEMS
        [[.str "Interval", .str "Utc", .str "GPSSats", .str "Latitude", .str "Longitude"],
         [.num 1000, .num 5000, .num 1, .num 45, .num 90]] 9 =
      ⟨some ["Interval", "Utc", "GPSSats", "Latitude", "Longitude"], [], 0,
       .retFalse .stopIteration⟩ :=
  c4_eof_during_skip
    [.str "Interval", .str "Utc", .str "GPSSats", .str "Latitude", .str "Longitude"]
    [[.num 1000, .num 5000, .num 1, .num 45, .num 90]] 9
    ["Interval", "Utc", "GPSSats", "Latitude", "Longitude"] 2 3 4 0
    (by decide) (by decide) (by omega) (by decide)

/-- Witness for C5's amended theorem: empty satellite-count field (position 2)
gap-filled from the previous written row while conversion is enabled. -/
theorem c5_witness :
    ([Value.num (9/10), Value.num (9/10), Value.num 7, Value.num (10 * to_rads),
      Value.num (20 * to_rads)] : List Value)[2]? =
      ([Value.num 0, Value.num 0, Value.num 7, Value.num 40, Value.num 50] :
        List Value)[2]? :=
  c5_gapfill 2 3 4 1100 5100
    [.num 0, .num 0, .num 7, .num 40, .num 50]
    [.num 2000, .num 6000, .str "", .num 10, .num 20]
    [.num (9/10), .num (9/10), .num 7, .num (10 * to_rads), .num (20 * to_rads)]
    2
    (by norm_num [stepRow, rebase01, pyIntAt, truncQ, setAt, convPhase, radAt,
      gapFill, gapFillFrom])
    (by decide) (by decide) (by decide) (by omega)

/-- Witness for C6's amended theorem: latitude 10 is written as
`10 * to_rads`. -/
theorem c6_witness :
    ([Value.num (9/10), Value.num (9/10), Value.num 7, Value.num (10 * to_rads),
      Value.num (20 * to_rads)] : List Value)[3]? = some (.num (10 * to_rads)) :=
  c6_radians.1 2 3 4 1100 5100
    [.num 0, .num 0, .num 7, .num 40, .num 50]
    [.num 2000, .num 6000, .num 7, .num 10, .num 20]
    [.num (9/10), .num (9/10), .num 7, .num (10 * to_rads), .num (20 * to_rads)]
    10 (by omega) (by omega) (by omega) (by omega) (by decide)
    (by norm_num [stepRow, rebase01, pyIntAt, truncQ, setAt, convPhase, radAt,
      gapFill, gapFillFrom])

/-- Witness for C7 at a two-record input producing one data row. -/
theorem c7_witness :
    ([Value.num 0, Value.num 0, Value.num 12] : List Value)[0]? = some (.num 0) ∧
    ([Value.num 0, Value.num 0, Value.num 12] : List Value)[1]? = some (.num 0) :=
  c7_first_row_zero_based
    [[.str "Interval", .str "Utc", .str "Battery"], [.num 1000, .num 5000, .num 12]] 0
    [.num 0, .num 0, .num 12] [] (by decide)

/-- Witness for C8 at input field-0 values 2000 <= 3000 with start time 1000. -/
theorem c8_witness :
    ∃ x y : ℚ, ([Value.num 1, Value.num 1] : List Value)[0]? = some (.num x) ∧
      ([Value.num 2, Value.num 2] : List Value)[0]? = some (.num y) ∧ x ≤ y :=
  c8_rebase_monotone 0 0 0 1000 5000 [] []
    [.num 2000, .num 6000] [.num 3000, .num 7000]
    [.num 1, .num 1] [.num 2, .num 2] 2000 3000
    (by decide) (by decide)
    (by norm_num [stepRow, rebase01, pyIntAt, truncQ, setAt, convPhase, gapFill,
      gapFillFrom])
    (by norm_num [stepRow, rebase01, pyIntAt, truncQ, setAt, convPhase, gapFill,
      gapFillFrom])
    (by norm_num)

/-- Witness for C9's amended theorem: the transform of a 2-field row keeps its
2 fields. -/
theorem c9_witness :
    ([Value.num 1, Value.num 1] : List Value).length =
      ([Value.num 2000, Value.num 6000] : List Value).length :=
  c9_transform_preserves_length.1 0 0 0 1000 5000 [] [.num 2000, .num 6000]
    [.num 1, .num 1]
    (by norm_num [stepRow, rebase01, pyIntAt, truncQ, setAt, convPhase, gapFill,
      gapFillFrom])

/-- Witness for C10 at a header whose first column is GPSSats, applied at
thresholds 5 and 7. -/
theorem c10_witness :
    (RCP_to_GEMS [[RawField.str "GPSSats", RawField.str "Latitude",
        RawField.str "Longitude"], [RawField.num 1000, RawField.num 5000, RawField.num 3]]
        5 =
      runWithIndices ["GPSSats", "Latitude", "Longitude"] 0 0 0 5
        [[RawField.num 1000, RawField.num 5000, RawField.num 3]]) ∧
    (RCP_to_GEMS [[RawField.str "GPSSats", RawField.str "Latitude",
        RawField.str "Longitude"], [RawField.num 1000, RawField.num 5000, RawField.num 3]]
        5 =
      RCP_to_GEMS [[RawField.str "GPSSats", RawField.str "Latitude",
        RawField.str "Longitude"], [RawField.num 1000, RawField.num 5000, RawField.num 3]]
        7) :=
  ⟨(c10_gpssats_at_zero_disables
      [.str "GPSSats", .str "Latitude", .str "Longitude"]
      [[.num 1000, .num 5000, .num 3]] 5 ["GPSSats", "Latitude", "Longitude"] 1 2
      (by decide) (by decide) (by decide) (by decide)).1,
   (c10_gpssats_at_zero_disables
      [.str "GPSSats", .str "Latitude", .str "Longitude"]
      [[.num 1000, .num 5000, .num 3]] 5 ["GPSSats", "Latitude", "Longitude"] 1 2
      (by decide) (by decide) (by decide) (by decide)).2 7⟩
